import Mathlib

/-!
Shallow embedding of the KAMREEN timer screen (the later revision of the
source, `HomeScreen`): the global 4-hour alarm, the five per-tank
counters, the shared filter-alert accumulator, persistence and
rehydration.  Pure state values replace the React `useState` cells; each
intent handler and interval callback of the source becomes a function
from the engine state to a new engine state together with the list of
side effects (vibration, sounds, dialogs) it dispatches.  All handlers
model the post-hydration regime (the source gates its intervals and
persist effect on `isHydrated`).
-/

namespace Kamreen

/-- `COUNTER_COUNT` from the source. -/
def COUNTER_COUNT : Nat := 5

/-- `GLOBAL_ALARM_INTERVAL_SECONDS = 4 * 60 * 60` from the source.
Kept as `Int` because the global elapsed value can be rehydrated from an
arbitrary persisted number. -/
def GLOBAL_ALARM_INTERVAL_SECONDS : Int := 4 * 60 * 60

/-- `CounterState` from the source.  `elapsed`, `startCount` and
`filterClicks` are natural numbers: every engine mutation keeps them
nonnegative and rehydration only accepts values `≥ 0` for them.
`lastPauseTimestamp : number | null` becomes `Option Int` (wall-clock
milliseconds; rehydration applies any number to it, sign unchecked). -/
structure CounterState where
  id : Nat
  elapsed : Nat
  isRunning : Bool
  isEmpty : Bool
  startCount : Nat
  lastPauseTimestamp : Option Int
  filterClicks : Nat
deriving Repr, DecidableEq

/-- The reactive cells of `HomeScreen` that make up the durable engine
state: `globalElapsed`, `globalRunning`, `counters`,
`filterStartEvents`.  `globalElapsed` is `Int`: the hydration path
applies any persisted number to it without a range check. -/
structure EngineState where
  globalElapsed : Int
  globalRunning : Bool
  counters : List CounterState
  filterStartEvents : Nat
deriving Repr, DecidableEq

/-- `createInitialCounters` from the source: five empty counters with
ids 1..5. -/
def createInitialCounters : List CounterState :=
  (List.range COUNTER_COUNT).map fun index =>
    { id := index + 1
      elapsed := 0
      isRunning := false
      isEmpty := true
      startCount := 0
      lastPauseTimestamp := none
      filterClicks := 0 }

/-- The initial values of the four state cells at process start. -/
def initialEngineState : EngineState :=
  { globalElapsed := 0
    globalRunning := false
    counters := createInitialCounters
    filterStartEvents := 0 }

/-- The two looping sounds of the source (`alarm.wav`,
`filter-alert.wav`). -/
inductive SoundKind where
  | alarm
  | filter
deriving Repr, DecidableEq

/-- Side effects the handlers dispatch to the platform collaborators.
`showBlockingDialog` stands for an `Alert.alert` with
`cancelable: false` and a single OK button; `showNotice` for the plain
rejection alert. -/
inductive Effect where
  | vibrate (pattern : List Nat)
  | playLoopingSound (kind : SoundKind)
  | stopSound (kind : SoundKind)
  | showBlockingDialog (title : String)
  | showNotice (title : String)
deriving Repr, DecidableEq

/-- Effects of `triggerFilterAlert`: vibrate `[0, 400, 150, 400]`, play
the looping filter sound, show the blocking "Filtration" dialog. -/
def filterAlertEffects : List Effect :=
  [Effect.vibrate [0, 400, 150, 400],
   Effect.playLoopingSound SoundKind.filter,
   Effect.showBlockingDialog "Filtration"]

/-- The qualifying test of `handleToggleCounter`, evaluated on the
pre-toggle counter: `target.isEmpty || (target.lastPauseTimestamp !==
null && now - target.lastPauseTimestamp >= 30000)`. -/
def counterQualifies (now : Int) (c : CounterState) : Bool :=
  c.isEmpty ||
    (match c.lastPauseTimestamp with
     | some ts => decide ((30000 : Int) ≤ now - ts)
     | none => false)

/-- The `setCounters(prev => prev.map(...))` body of
`handleToggleCounter`: the counter with the matching id is paused
(recording `lastPauseTimestamp`) if it was running, otherwise started
(`isRunning := true`, `isEmpty := false`, `startCount := 0`,
`lastPauseTimestamp := none`, `filterClicks` bumped when `allow`).
The source calls `Date.now()` a second time for the pause timestamp;
both reads are modelled by the same `now`. -/
def toggleOne (now : Int) (id : Nat) (allow : Bool)
    (counter : CounterState) : CounterState :=
  if counter.id ≠ id then counter
  else if counter.isRunning then
    { counter with isRunning := false, lastPauseTimestamp := some now }
  else
    { counter with
        isRunning := true
        isEmpty := false
        startCount := 0
        lastPauseTimestamp := none
        filterClicks :=
          if allow then counter.filterClicks + 1 else counter.filterClicks }

/-- The full `prev.map(...)` pass of `handleToggleCounter`. -/
def toggleCounterList (now : Int) (id : Nat) (allow : Bool)
    (l : List CounterState) : List CounterState :=
  l.map (toggleOne now id allow)

/-- The `setFilterStartEvents` updater of `handleToggleCounter`:
`next = prev + 1`; if `next >= 2` the filter alert fires and the
accumulator resets to 0, else it becomes `next`.  Returns the new
accumulator value and whether the alert fired. -/
def accumulatorStep (prev : Nat) : Nat × Bool :=
  if prev + 1 ≥ 2 then (0, true) else (prev + 1, false)

/-- `handleToggleCounter(id)` from the source, with the wall clock
passed in as `now`.  While `globalRunning` is false the intent is
rejected with the "Service inactif" notice and the state is returned
unchanged.  Otherwise the qualifying decision is precomputed from the
pre-toggle snapshot (`allowFilterIncrementPrecomputed`), the counter
list is toggled, and, only when the start qualifies, the shared
accumulator is stepped (possibly firing the filter alert). -/
def handleToggleCounter (now : Int) (id : Nat) (s : EngineState) :
    EngineState × List Effect :=
  if !s.globalRunning then
    (s, [Effect.showNotice "Service inactif"])
  else
    let target := s.counters.find? fun c => c.id == id
    let isStarting := match target with
      | some t => !t.isRunning
      | none => true
    let allow := isStarting &&
      (match target with
       | some t => counterQualifies now t
       | none => false)
    let counters := toggleCounterList now id allow s.counters
    if allow then
      let step := accumulatorStep s.filterStartEvents
      ({ s with counters := counters, filterStartEvents := step.1 },
       if step.2 then filterAlertEffects else [])
    else
      ({ s with counters := counters }, [])

/-- `handleClearCounter(id)` from the source: the matching counter is
reset to the empty state (its id is kept); others are untouched. -/
def handleClearCounter (id : Nat) (s : EngineState) : EngineState :=
  { s with
      counters := s.counters.map fun counter =>
        if counter.id ≠ id then counter
        else
          { counter with
              elapsed := 0
              isRunning := false
              isEmpty := true
              startCount := 0
              lastPauseTimestamp := none
              filterClicks := 0 } }

/-- The confirmed branch of `handleActivateGlobal`: a no-op while
already running, otherwise (after the user confirms the reservoir is
full) `globalElapsed := 0` and `globalRunning := true`. -/
def handleActivateGlobal (s : EngineState) : EngineState :=
  if s.globalRunning then s
  else { s with globalElapsed := 0, globalRunning := true }

/-- The confirmed branch of `handleConfirmResetAll`: stop the alarm
sound, stop the filter sound, `globalRunning := false`,
`globalElapsed := 0`, counters back to `createInitialCounters`,
`filterStartEvents := 0`. -/
def handleConfirmResetAll (s : EngineState) : EngineState × List Effect :=
  ({ s with
      globalRunning := false
      globalElapsed := 0
      counters := createInitialCounters
      filterStartEvents := 0 },
   [Effect.stopSound SoundKind.alarm, Effect.stopSound SoundKind.filter])

/-- The global one-second interval: while running,
`setGlobalElapsed(prev => prev + 1 >= INTERVAL ? INTERVAL : prev + 1)`.
The interval is only registered while `globalRunning`, modelled by the
guard. -/
def globalTick (s : EngineState) : EngineState :=
  if s.globalRunning then
    { s with
        globalElapsed :=
          if s.globalElapsed + 1 ≥ GLOBAL_ALARM_INTERVAL_SECONDS then
            GLOBAL_ALARM_INTERVAL_SECONDS
          else s.globalElapsed + 1 }
  else s

/-- The per-counter one-second interval: one pass over the list; a
running counter gets `elapsed + 1` and `isEmpty := false`, a
non-running counter is returned as-is. -/
def countersTick (s : EngineState) : EngineState :=
  { s with
      counters := s.counters.map fun counter =>
        if !counter.isRunning then counter
        else { counter with elapsed := counter.elapsed + 1, isEmpty := false } }

/-- The alarm-firing effect of the source: when running and
`globalElapsed` has reached the interval, vibrate `[0, 500, 200, 500]`,
start the looping alarm sound, reset `globalElapsed` to 0 (leaving
`globalRunning` true) and show the blocking "KAMREEN" dialog.
Otherwise nothing happens. -/
def checkGlobalAlarm (s : EngineState) : EngineState × List Effect :=
  if s.globalRunning && GLOBAL_ALARM_INTERVAL_SECONDS ≤ s.globalElapsed then
    ({ s with globalElapsed := 0 },
     [Effect.vibrate [0, 500, 200, 500],
      Effect.playLoopingSound SoundKind.alarm,
      Effect.showBlockingDialog "KAMREEN"])
  else (s, [])

/-- The OK button of the alarm dialog: `stopAlarmSound()` (stop and
unload); the engine state is untouched, so the service keeps running. -/
def acknowledgeAlarm (s : EngineState) : EngineState × List Effect :=
  (s, [Effect.stopSound SoundKind.alarm])

/-- The OK button of the filter dialog: `stopFilterSound()`. -/
def acknowledgeFilterAlert (s : EngineState) : EngineState × List Effect :=
  (s, [Effect.stopSound SoundKind.filter])

/-- A JSON field value as the hydration effect inspects it with
`typeof`: a number, a boolean, `null`, or anything else (a missing
property, a string, an object, ...).  Numbers are modelled as integers,
following the data model of the state (all stored numbers are produced
by integer arithmetic). -/
inductive JVal where
  | jnum (n : Int)
  | jbool (b : Bool)
  | jnull
  | jother
deriving Repr, DecidableEq

/-- `typeof v === "number"` as an `Option`. -/
def JVal.asNum : JVal → Option Int
  | JVal.jnum n => some n
  | _ => none

/-- `typeof v === "boolean"` as an `Option`. -/
def JVal.asBool : JVal → Option Bool
  | JVal.jbool b => some b
  | _ => none

/-- One element of the persisted `counters` array, before validation:
every property is an arbitrary JSON value. -/
structure RawCounter where
  id : JVal
  elapsed : JVal
  isRunning : JVal
  isEmpty : JVal
  startCount : JVal
  lastPauseTimestamp : JVal
  filterClicks : JVal
deriving Repr, DecidableEq

/-- The parsed persisted blob, before validation.  `counters` is `none`
when the property is missing or fails `Array.isArray`. -/
structure RawPersisted where
  globalElapsed : JVal
  globalRunning : JVal
  counters : Option (List RawCounter)
  filterStartEvents : JVal
deriving Repr, DecidableEq

/-- The per-counter merge of the hydration effect: starting from the
freshly-initialized counter, apply `elapsed`, `startCount` and
`filterClicks` when they are numbers `≥ 0`, `isRunning` and `isEmpty`
when they are booleans, and `lastPauseTimestamp` when it is a number
(no sign check); keep the initial value otherwise.  The counter id is
the initial one (the spread `{ ...initial }` keeps it). -/
def hydrateCounter (initial : CounterState) (persisted : RawCounter) :
    CounterState :=
  { initial with
      elapsed :=
        match persisted.elapsed with
        | JVal.jnum n => if 0 ≤ n then n.toNat else initial.elapsed
        | _ => initial.elapsed
      isRunning :=
        match persisted.isRunning with
        | JVal.jbool b => b
        | _ => initial.isRunning
      isEmpty :=
        match persisted.isEmpty with
        | JVal.jbool b => b
        | _ => initial.isEmpty
      startCount :=
        match persisted.startCount with
        | JVal.jnum n => if 0 ≤ n then n.toNat else initial.startCount
        | _ => initial.startCount
      lastPauseTimestamp :=
        match persisted.lastPauseTimestamp with
        | JVal.jnum n => some n
        | _ => initial.lastPauseTimestamp
      filterClicks :=
        match persisted.filterClicks with
        | JVal.jnum n => if 0 ≤ n then n.toNat else initial.filterClicks
        | _ => initial.filterClicks }

/-- The hydration effect applied to the freshly-initialized state:
`globalElapsed` is applied whenever it is a number (the source checks
only `typeof parsed.globalElapsed === "number"`), `globalRunning`
whenever it is a boolean, each persisted counter is merged into the
initial counter with the same id (counters with no persisted entry stay
initial), and `filterStartEvents` is applied when it is a number
`≥ 0`. -/
def hydrate (raw : RawPersisted) : EngineState :=
  let s0 := initialEngineState
  { globalElapsed :=
      match raw.globalElapsed with
      | JVal.jnum n => n
      | _ => s0.globalElapsed
    globalRunning :=
      match raw.globalRunning with
      | JVal.jbool b => b
      | _ => s0.globalRunning
    counters :=
      match raw.counters with
      | none => s0.counters
      | some list =>
        s0.counters.map fun initial =>
          match list.find? (fun item => item.id == JVal.jnum initial.id) with
          | none => initial
          | some persisted => hydrateCounter initial persisted
    filterStartEvents :=
      match raw.filterStartEvents with
      | JVal.jnum n => if 0 ≤ n then n.toNat else s0.filterStartEvents
      | _ => s0.filterStartEvents }

/-- Rehydration from the store: a missing record or a JSON parse error
leaves the freshly-initialized state (the `catch` path of the source);
otherwise the parsed blob is merged by `hydrate`. -/
def hydrateFromStore (stored : Option RawPersisted) : EngineState :=
  match stored with
  | none => initialEngineState
  | some raw => hydrate raw

/-- `JSON.stringify` of one counter, field for field: numbers persist
as numbers, booleans as booleans, a `null` pause timestamp as JSON
`null`. -/
def toRawCounter (c : CounterState) : RawCounter :=
  { id := JVal.jnum c.id
    elapsed := JVal.jnum c.elapsed
    isRunning := JVal.jbool c.isRunning
    isEmpty := JVal.jbool c.isEmpty
    startCount := JVal.jnum c.startCount
    lastPauseTimestamp :=
      match c.lastPauseTimestamp with
      | some ts => JVal.jnum ts
      | none => JVal.jnull
    filterClicks := JVal.jnum c.filterClicks }

/-- The persist effect: the payload `{ globalElapsed, globalRunning,
counters, filterStartEvents }` serialized to the store. -/
def toRaw (s : EngineState) : RawPersisted :=
  { globalElapsed := JVal.jnum s.globalElapsed
    globalRunning := JVal.jbool s.globalRunning
    counters := some (s.counters.map toRawCounter)
    filterStartEvents := JVal.jnum s.filterStartEvents }

/-- The value of `allowFilterIncrementPrecomputed` in
`handleToggleCounter` (for a running global service): the target
counter exists, is not running, and passes the qualifying test. -/
def toggleAllow (now : Int) (id : Nat) (s : EngineState) : Bool :=
  match s.counters.find? fun c => c.id == id with
  | some t => !t.isRunning && counterQualifies now t
  | none => false

/-- The per-counter invariant claimed by the spec: exactly one of
"the counter is empty" and "the counter has nonzero elapsed or is
running" holds. -/
def counterExactlyOne (c : CounterState) : Prop :=
  Xor' (c.isEmpty = true) (c.elapsed ≠ 0 ∨ c.isRunning = true)

/-- The weaker per-counter invariant the code maintains: a running
counter is never empty. -/
def counterSane (c : CounterState) : Prop :=
  c.isRunning = true → c.isEmpty = false

instance (c : CounterState) : Decidable (counterExactlyOne c) := by
  unfold counterExactlyOne
  exact inferInstance

instance (c : CounterState) : Decidable (counterSane c) := by
  unfold counterSane
  exact inferInstance

/-- The states reachable from the initial snapshot through the intent
handlers and the two interval ticks. -/
inductive Reachable : EngineState → Prop where
  | init : Reachable initialEngineState
  | globalTick {s} : Reachable s → Reachable (globalTick s)
  | countersTick {s} : Reachable s → Reachable (countersTick s)
  | alarm {s} : Reachable s → Reachable (checkGlobalAlarm s).1
  | activate {s} : Reachable s → Reachable (handleActivateGlobal s)
  | resetAll {s} : Reachable s → Reachable (handleConfirmResetAll s).1
  | toggle {s} (now : Int) (id : Nat) :
      Reachable s → Reachable (handleToggleCounter now id s).1
  | clear {s} (id : Nat) : Reachable s → Reachable (handleClearCounter id s)

/-! ### Helper lemmas -/

/-- On a running service, the toggle handler reduces to the
precomputed-allow form. -/
theorem handleToggleCounter_run (now : Int) (id : Nat) (s : EngineState)
    (h : s.globalRunning = true) :
    handleToggleCounter now id s =
      (if toggleAllow now id s then
        ({ s with
            counters := toggleCounterList now id (toggleAllow now id s) s.counters
            filterStartEvents := (accumulatorStep s.filterStartEvents).1 },
         if (accumulatorStep s.filterStartEvents).2 then filterAlertEffects
         else [])
      else
        ({ s with
            counters := toggleCounterList now id (toggleAllow now id s) s.counters },
         [])) := by
  unfold handleToggleCounter toggleAllow
  cases hf : s.counters.find? fun c => c.id == id <;> simp [h, hf]

/-- Toggling never changes the global elapsed value. -/
theorem handleToggleCounter_globalElapsed (now : Int) (id : Nat)
    (s : EngineState) :
    (handleToggleCounter now id s).1.globalElapsed = s.globalElapsed := by
  by_cases h : s.globalRunning = true
  · rw [handleToggleCounter_run now id s h]
    by_cases ha : toggleAllow now id s <;> simp [ha]
  · simp at h
    simp [handleToggleCounter, h]

/-- Toggling never changes the global running flag. -/
theorem handleToggleCounter_globalRunning (now : Int) (id : Nat)
    (s : EngineState) :
    (handleToggleCounter now id s).1.globalRunning = s.globalRunning := by
  by_cases h : s.globalRunning = true
  · rw [handleToggleCounter_run now id s h]
    by_cases ha : toggleAllow now id s <;> simp [ha]
  · simp at h
    simp [handleToggleCounter, h]

/-- The accumulator never returns a value above 1. -/
theorem accumulatorStep_le_one (prev : Nat) : (accumulatorStep prev).1 ≤ 1 := by
  unfold accumulatorStep
  by_cases h : prev + 1 ≥ 2 <;> simp [h] <;> omega

/-- The new accumulator value after a toggle: stepped when the service
runs and the start qualifies, untouched otherwise. -/
theorem handleToggleCounter_fse (now : Int) (id : Nat) (s : EngineState) :
    (handleToggleCounter now id s).1.filterStartEvents =
      if s.globalRunning = true ∧ toggleAllow now id s = true then
        (accumulatorStep s.filterStartEvents).1
      else s.filterStartEvents := by
  by_cases h : s.globalRunning = true
  · rw [handleToggleCounter_run now id s h]
    by_cases ha : toggleAllow now id s = true <;> simp [h, ha]
  · simp at h
    simp [handleToggleCounter, h]

/-- The effects of a toggle: the rejection notice when stopped, the
filter-alert batch when a qualifying start fires the accumulator,
nothing otherwise. -/
theorem handleToggleCounter_effects (now : Int) (id : Nat) (s : EngineState) :
    (handleToggleCounter now id s).2 =
      if s.globalRunning = false then [Effect.showNotice "Service inactif"]
      else if toggleAllow now id s && (accumulatorStep s.filterStartEvents).2
        then filterAlertEffects
      else [] := by
  by_cases h : s.globalRunning = true
  · rw [handleToggleCounter_run now id s h]
    by_cases ha : toggleAllow now id s = true <;>
      by_cases hs : (accumulatorStep s.filterStartEvents).2 = true <;>
        simp [h, ha, hs]
  · simp at h
    simp [handleToggleCounter, h]

/-- A toggle on a stopped service only emits the rejection notice. -/
theorem toggle_stopped_eq (s : EngineState) (now : Int) (id : Nat)
    (h : s.globalRunning = false) :
    handleToggleCounter now id s =
      (s, [Effect.showNotice "Service inactif"]) := by
  simp [handleToggleCounter, h]

/-- `toggleOne` never changes a counter's id. -/
theorem toggleOne_id (now : Int) (id : Nat) (allow : Bool)
    (c : CounterState) : (toggleOne now id allow c).id = c.id := by
  unfold toggleOne
  by_cases h1 : c.id ≠ id <;> by_cases h2 : c.isRunning <;> simp [h1, h2]

/-! ### Claim theorems -/

/-- C5: toggling any counter while the global machine is stopped
(`globalRunning = false`) is rejected with the user-visible
"Service inactif" notice and the returned state is exactly the input
state: every counter, the global elapsed/running fields and
`filterStartEvents` are unchanged. -/
theorem toggle_rejected_while_stopped (s : EngineState) (now : Int)
    (id : Nat) (h : s.globalRunning = false) :
    handleToggleCounter now id s =
      (s, [Effect.showNotice "Service inactif"]) :=
  toggle_stopped_eq s now id h

/-- Witness for C5 at the initial state and counter 1. -/
theorem toggle_rejected_while_stopped_witness :
    handleToggleCounter 0 1 initialEngineState =
      (initialEngineState, [Effect.showNotice "Service inactif"]) :=
  toggle_rejected_while_stopped initialEngineState 0 1 rfl

/-- C6: from every state, the confirmed reset-all intent stops the
alarm sound and the filter sound and returns the canonical initial
snapshot: global machine stopped with elapsed 0, the five counters in
their initial empty state (elapsed 0, not running, empty, zero
startCount, no pause timestamp, zero filterClicks), and a zero filter
accumulator. -/
theorem reset_all_canonical (s : EngineState) :
    handleConfirmResetAll s =
      (initialEngineState,
       [Effect.stopSound SoundKind.alarm, Effect.stopSound SoundKind.filter]) ∧
    initialEngineState.globalRunning = false ∧
    initialEngineState.globalElapsed = 0 ∧
    initialEngineState.filterStartEvents = 0 ∧
    initialEngineState.counters.length = 5 ∧
    ∀ c ∈ initialEngineState.counters,
      c.elapsed = 0 ∧ c.isRunning = false ∧ c.isEmpty = true ∧
        c.startCount = 0 ∧ c.lastPauseTimestamp = none ∧ c.filterClicks = 0 := by
  refine ⟨?_, by decide, by decide, by decide, by decide, by decide⟩
  cases s
  rfl

/-- C3: on a running service, as soon as `globalElapsed` has reached
the 14400-second interval the alarm fires: the effects are, in order,
the fixed vibration pattern `[0, 500, 200, 500]`, the looping alarm
sound, and the blocking acknowledgment dialog; in the same update
`globalElapsed` resets to 0 while `globalRunning` stays true (the
later-revision policy).  Re-checking the alarm condition on the
post-fire state fires nothing (once per crossing), below the interval
nothing fires, and acknowledging the dialog stops the alarm sound and
leaves the running state untouched. -/
theorem alarm_fires_at_interval (s : EngineState)
    (hrun : s.globalRunning = true)
    (hreach : GLOBAL_ALARM_INTERVAL_SECONDS ≤ s.globalElapsed) :
    GLOBAL_ALARM_INTERVAL_SECONDS = 14400 ∧
    checkGlobalAlarm s =
      ({ s with globalElapsed := 0 },
       [Effect.vibrate [0, 500, 200, 500],
        Effect.playLoopingSound SoundKind.alarm,
        Effect.showBlockingDialog "KAMREEN"]) ∧
    (checkGlobalAlarm s).1.globalElapsed = 0 ∧
    (checkGlobalAlarm s).1.globalRunning = true ∧
    checkGlobalAlarm (checkGlobalAlarm s).1 = ((checkGlobalAlarm s).1, []) ∧
    acknowledgeAlarm (checkGlobalAlarm s).1 =
      ((checkGlobalAlarm s).1, [Effect.stopSound SoundKind.alarm]) ∧
    (∀ s' : EngineState, s'.globalElapsed < GLOBAL_ALARM_INTERVAL_SECONDS →
      checkGlobalAlarm s' = (s', [])) := by
  have hfire :
      checkGlobalAlarm s =
        ({ s with globalElapsed := 0 },
         [Effect.vibrate [0, 500, 200, 500],
          Effect.playLoopingSound SoundKind.alarm,
          Effect.showBlockingDialog "KAMREEN"]) := by
    simp [checkGlobalAlarm, hrun, hreach]
  have hquiet : ∀ s' : EngineState,
      s'.globalElapsed < GLOBAL_ALARM_INTERVAL_SECONDS →
      checkGlobalAlarm s' = (s', []) := by
    intro s' hlt
    simp [checkGlobalAlarm, not_le.mpr hlt]
  refine ⟨by decide, hfire, by rw [hfire], by rw [hfire]; exact hrun, ?_, rfl, hquiet⟩
  apply hquiet
  rw [hfire]
  show (0 : Int) < GLOBAL_ALARM_INTERVAL_SECONDS
  decide

/-- Witness for C3: a running service whose elapsed time has just
reached the interval. -/
theorem alarm_fires_at_interval_witness :
    checkGlobalAlarm
        { initialEngineState with globalRunning := true, globalElapsed := 14400 } =
      ({ initialEngineState with globalRunning := true, globalElapsed := 0 },
       [Effect.vibrate [0, 500, 200, 500],
        Effect.playLoopingSound SoundKind.alarm,
        Effect.showBlockingDialog "KAMREEN"]) :=
  (alarm_fires_at_interval
    { initialEngineState with globalRunning := true, globalElapsed := 14400 }
    rfl (by decide)).2.1

/-- Invariant: every reachable state keeps the global elapsed value
inside `[0, GLOBAL_ALARM_INTERVAL_SECONDS]`. -/
theorem reachable_globalElapsed_bounds (s : EngineState) (h : Reachable s) :
    0 ≤ s.globalElapsed ∧
      s.globalElapsed ≤ GLOBAL_ALARM_INTERVAL_SECONDS := by
  have hI : GLOBAL_ALARM_INTERVAL_SECONDS = 14400 := by decide
  induction h with
  | init => exact ⟨by decide, by decide⟩
  | globalTick _ ih =>
    unfold globalTick
    split
    · rename_i hrun
      split
      · simp [hI]
      · rename_i hlt
        simp only [hI] at *
        constructor
        · omega
        · omega
    · exact ih
  | countersTick _ ih => simpa [countersTick] using ih
  | alarm _ ih =>
    unfold checkGlobalAlarm
    split
    · simp [hI]
    · exact ih
  | activate _ ih =>
    unfold handleActivateGlobal
    split
    · exact ih
    · simp [hI]
  | resetAll _ ih => simp [handleConfirmResetAll, hI]
  | toggle now id _ ih => rw [handleToggleCounter_globalElapsed]; exact ih
  | clear id _ ih => simpa [handleClearCounter] using ih

/-- Invariant: every reachable state keeps `filterStartEvents` at 0 or
1. -/
theorem reachable_fse_le_one (s : EngineState) (h : Reachable s) :
    s.filterStartEvents ≤ 1 := by
  induction h with
  | init => decide
  | globalTick _ ih =>
    unfold globalTick
    split
    · simpa using ih
    · exact ih
  | countersTick _ ih => simpa [countersTick] using ih
  | alarm _ ih =>
    unfold checkGlobalAlarm
    split
    · simpa using ih
    · exact ih
  | activate _ ih =>
    unfold handleActivateGlobal
    split
    · exact ih
    · simpa using ih
  | resetAll _ ih => simp [handleConfirmResetAll]
  | toggle now id _ ih =>
    rw [handleToggleCounter_fse]
    split
    · exact accumulatorStep_le_one _
    · exact ih
  | clear id _ ih => simpa [handleClearCounter] using ih

/-- C4: the global elapsed value stays in `[0, ALARM_INTERVAL]` on
every reachable state; a tick while running is exactly a clamped
increment by 1 (`min (prev + 1) 14400`) and never decreases the value;
a tick while stopped does nothing; and no other non-reset operation
(toggle, clear, counter tick) touches the global elapsed value. -/
theorem global_elapsed_clamped :
    (∀ s, Reachable s →
        0 ≤ s.globalElapsed ∧
          s.globalElapsed ≤ GLOBAL_ALARM_INTERVAL_SECONDS) ∧
    GLOBAL_ALARM_INTERVAL_SECONDS = 14400 ∧
    (∀ s : EngineState, s.globalRunning = true →
        (globalTick s).globalElapsed =
          min (s.globalElapsed + 1) GLOBAL_ALARM_INTERVAL_SECONDS) ∧
    (∀ s : EngineState, s.globalRunning = false → globalTick s = s) ∧
    (∀ s, Reachable s → s.globalElapsed ≤ (globalTick s).globalElapsed) ∧
    (∀ (s : EngineState) (now : Int) (id : Nat),
        (handleToggleCounter now id s).1.globalElapsed = s.globalElapsed) ∧
    (∀ (s : EngineState) (id : Nat),
        (handleClearCounter id s).globalElapsed = s.globalElapsed) ∧
    (∀ s : EngineState, (countersTick s).globalElapsed = s.globalElapsed) := by
  have hI : GLOBAL_ALARM_INTERVAL_SECONDS = 14400 := by decide
  refine ⟨reachable_globalElapsed_bounds, hI, ?_, ?_, ?_, ?_, ?_, ?_⟩
  · intro s hrun
    simp only [globalTick, hrun, if_true]
    simp only [hI]
    split <;> omega
  · intro s hstop
    simp [globalTick, hstop]
  · intro s hs
    have hb := reachable_globalElapsed_bounds s hs
    simp only [globalTick]
    split
    · simp only [hI] at *
      split <;> simp <;> omega
    · exact le_refl _
  · exact fun s now id => handleToggleCounter_globalElapsed now id s
  · intro s id
    simp [handleClearCounter]
  · intro s
    simp [countersTick]

/-- Witness for C4 at the initial state (and the tick equations at a
concretely running state). -/
theorem global_elapsed_clamped_witness :
    (0 ≤ initialEngineState.globalElapsed ∧
       initialEngineState.globalElapsed ≤ GLOBAL_ALARM_INTERVAL_SECONDS) ∧
    (globalTick { initialEngineState with globalRunning := true }).globalElapsed =
      min (initialEngineState.globalElapsed + 1) GLOBAL_ALARM_INTERVAL_SECONDS ∧
    globalTick initialEngineState = initialEngineState ∧
    initialEngineState.globalElapsed ≤ (globalTick initialEngineState).globalElapsed :=
  ⟨global_elapsed_clamped.1 initialEngineState Reachable.init,
   global_elapsed_clamped.2.2.1 { initialEngineState with globalRunning := true } rfl,
   global_elapsed_clamped.2.2.2.1 initialEngineState rfl,
   global_elapsed_clamped.2.2.2.2.1 initialEngineState Reachable.init⟩

/-- C2: on every reachable state the shared accumulator is strictly
below 2 (it is never observed at 2 once the update returns), and a
toggle either fires the filter alert — in which case the accumulator
was at 1, the increment reached 2, and the same update reset it to 0 —
or leaves the accumulator at its old value or its old value plus 1. -/
theorem filter_accumulator_cycle :
    (∀ s, Reachable s → s.filterStartEvents < 2) ∧
    (∀ (s : EngineState) (now : Int) (id : Nat), Reachable s →
        (Effect.playLoopingSound SoundKind.filter ∈
            (handleToggleCounter now id s).2 →
          (handleToggleCounter now id s).1.filterStartEvents = 0 ∧
            s.filterStartEvents = 1) ∧
        (Effect.playLoopingSound SoundKind.filter ∉
            (handleToggleCounter now id s).2 →
          (handleToggleCounter now id s).1.filterStartEvents =
              s.filterStartEvents ∨
            (handleToggleCounter now id s).1.filterStartEvents =
              s.filterStartEvents + 1)) := by
  constructor
  · intro s hs
    have := reachable_fse_le_one s hs
    omega
  · intro s now id hs
    have hle := reachable_fse_le_one s hs
    rw [handleToggleCounter_effects, handleToggleCounter_fse]
    by_cases hr : s.globalRunning = true
    · by_cases ha : toggleAllow now id s = true
      · by_cases hp : s.filterStartEvents + 1 ≥ 2
        · simp [hr, ha, accumulatorStep, hp, filterAlertEffects]
          omega
        · simp [hr, ha, accumulatorStep, hp, filterAlertEffects]
      · simp [hr, ha]
    · simp at hr
      simp [hr]

/-- Witness for C2 at the initial state. -/
theorem filter_accumulator_cycle_witness :
    initialEngineState.filterStartEvents < 2 ∧
    ((handleToggleCounter 0 1 initialEngineState).1.filterStartEvents =
        initialEngineState.filterStartEvents ∨
      (handleToggleCounter 0 1 initialEngineState).1.filterStartEvents =
        initialEngineState.filterStartEvents + 1) :=
  ⟨filter_accumulator_cycle.1 initialEngineState Reachable.init,
   (filter_accumulator_cycle.2 initialEngineState 0 1 Reachable.init).2
     (by decide)⟩

/-- C7: one pass of the shared counter tick leaves the list length
unchanged; a counter that was running at tick start is advanced by
exactly one second (only `elapsed` and `isEmpty` change), and a counter
that was not running is returned completely unchanged — no
cross-counter interference. -/
theorem counters_tick_frame (s : EngineState) (i : Nat) (c : CounterState)
    (h : s.counters[i]? = some c) :
    (countersTick s).counters.length = s.counters.length ∧
    (c.isRunning = true →
        (countersTick s).counters[i]? =
          some { c with elapsed := c.elapsed + 1, isEmpty := false }) ∧
    (c.isRunning = false → (countersTick s).counters[i]? = some c) := by
  refine ⟨by simp [countersTick], ?_, ?_⟩
  · intro hrun
    simp only [countersTick, List.getElem?_map, h, Option.map_some]
    simp [hrun]
  · intro hstop
    simp only [countersTick, List.getElem?_map, h, Option.map_some]
    simp [hstop]

/-- Witness for C7: a one-counter state with the counter running at
`elapsed = 3` and, at the initial state, counter 1 not running. -/
theorem counters_tick_frame_witness :
    (countersTick
        { initialEngineState with
            counters := [{ id := 1, elapsed := 3, isRunning := true,
                           isEmpty := false, startCount := 0,
                           lastPauseTimestamp := none,
                           filterClicks := 0 }] }).counters[0]? =
      some { id := 1, elapsed := 4, isRunning := true, isEmpty := false,
             startCount := 0, lastPauseTimestamp := none,
             filterClicks := 0 } ∧
    (countersTick initialEngineState).counters[0]? =
      some { id := 1, elapsed := 0, isRunning := false, isEmpty := true,
             startCount := 0, lastPauseTimestamp := none,
             filterClicks := 0 } :=
  ⟨(counters_tick_frame
      { initialEngineState with
          counters := [{ id := 1, elapsed := 3, isRunning := true,
                         isEmpty := false, startCount := 0,
                         lastPauseTimestamp := none, filterClicks := 0 }] }
      0 _ rfl).2.1 rfl,
   (counters_tick_frame initialEngineState 0 _ rfl).2.2 rfl⟩

/-- `find?` commutes with a map whose image decides the target
predicate the same way the source decides its own. -/
theorem find?_map_pred_invariant {α β : Type} (f : α → β)
    (p : α → Bool) (q : β → Bool) (hf : ∀ c, q (f c) = p c)
    (l : List α) :
    (l.map f).find? q = (l.find? p).map f := by
  induction l with
  | nil => rfl
  | cons a t ih =>
    by_cases hp : p a = true
    · have hpf : q (f a) = true := by rw [hf]; exact hp
      simp [List.find?_cons_of_pos, hp, hpf]
    · have hp' : p a = false := by simpa using hp
      have hpf : q (f a) = false := by rw [hf]; exact hp'
      simp [List.find?_cons_of_neg, hp', hpf, ih]

/-- The boolean qualifying test agrees with its propositional reading:
the counter is empty, or it carries a pause timestamp at least 30000 ms
(inclusive) before `now`. -/
theorem counterQualifies_iff (now : Int) (c : CounterState) :
    counterQualifies now c = true ↔
      (c.isEmpty = true ∨
        ∃ ts, c.lastPauseTimestamp = some ts ∧ (30000 : Int) ≤ now - ts) := by
  unfold counterQualifies
  cases hlp : c.lastPauseTimestamp with
  | none => simp
  | some ts => simp

/-- On a running service the toggle result's counter list is the single
mapped pass with the precomputed allow flag. -/
theorem handleToggleCounter_counters (now : Int) (id : Nat)
    (s : EngineState) (hrun : s.globalRunning = true) :
    (handleToggleCounter now id s).1.counters =
      toggleCounterList now id (toggleAllow now id s) s.counters := by
  rw [handleToggleCounter_run now id s hrun]
  by_cases ha : toggleAllow now id s = true <;> simp [ha]

/-- C1: with the service running and the target counter not running,
the start qualifies exactly when the counter was empty or its pause
timestamp is at least 30000 ms old (boundary inclusive).  A qualifying
start turns the counter on with `filterClicks` incremented by exactly 1
and feeds `filterStartEvents + 1` — computed from the pre-toggle
snapshot — into the accumulator (whose reach-2 wrap is the same
update); a non-qualifying start turns the counter on with
`filterClicks` and `filterStartEvents` both unchanged. -/
theorem toggle_qualifying_start (s : EngineState) (now : Int) (id : Nat)
    (c : CounterState) (hrun : s.globalRunning = true)
    (hfind : s.counters.find? (fun x => x.id == id) = some c)
    (hpaused : c.isRunning = false) :
    ((c.isEmpty = true ∨
        ∃ ts, c.lastPauseTimestamp = some ts ∧ (30000 : Int) ≤ now - ts) →
      (handleToggleCounter now id s).1.counters.find? (fun x => x.id == id) =
          some { c with isRunning := true, isEmpty := false, startCount := 0,
                        lastPauseTimestamp := none,
                        filterClicks := c.filterClicks + 1 } ∧
        (handleToggleCounter now id s).1.filterStartEvents =
          (if s.filterStartEvents + 1 ≥ 2 then 0
           else s.filterStartEvents + 1)) ∧
    (¬(c.isEmpty = true ∨
        ∃ ts, c.lastPauseTimestamp = some ts ∧ (30000 : Int) ≤ now - ts) →
      (handleToggleCounter now id s).1.counters.find? (fun x => x.id == id) =
          some { c with isRunning := true, isEmpty := false, startCount := 0,
                        lastPauseTimestamp := none } ∧
        (handleToggleCounter now id s).1.filterStartEvents =
          s.filterStartEvents) := by
  have hid : c.id = id := by
    have := List.find?_some hfind
    simpa using this
  have hallow : toggleAllow now id s = counterQualifies now c := by
    unfold toggleAllow
    rw [hfind]
    simp [hpaused]
  have hfind' : ∀ allow : Bool,
      (toggleCounterList now id allow s.counters).find? (fun x => x.id == id) =
        some (toggleOne now id allow c) := by
    intro allow
    unfold toggleCounterList
    rw [find?_map_pred_invariant (toggleOne now id allow) _ _
        (fun c' => by rw [toggleOne_id]), hfind]
    rfl
  constructor
  · intro hq
    have hqb : counterQualifies now c = true := (counterQualifies_iff now c).2 hq
    have hab : toggleAllow now id s = true := by rw [hallow]; exact hqb
    constructor
    · rw [handleToggleCounter_counters now id s hrun, hab, hfind' true]
      simp [toggleOne, hid, hpaused]
    · rw [handleToggleCounter_fse, if_pos ⟨hrun, hab⟩]
      unfold accumulatorStep
      split <;> rfl
  · intro hq
    have hqb : counterQualifies now c = false := by
      cases hcq : counterQualifies now c
      · rfl
      · exact absurd ((counterQualifies_iff now c).1 hcq) hq
    have hab : toggleAllow now id s = false := by rw [hallow]; exact hqb
    constructor
    · rw [handleToggleCounter_counters now id s hrun, hab, hfind' false]
      simp [toggleOne, hid, hpaused]
    · rw [handleToggleCounter_fse, if_neg (by simp [hab])]

/-- Witness for C1: a qualifying start of the empty counter 1 on a
freshly activated service. -/
theorem toggle_qualifying_start_witness :
    (handleToggleCounter 0 1
        { initialEngineState with globalRunning := true }).1.counters.find?
        (fun x => x.id == 1) =
      some { id := 1, elapsed := 0, isRunning := true, isEmpty := false,
             startCount := 0, lastPauseTimestamp := none, filterClicks := 1 } ∧
    (handleToggleCounter 0 1
        { initialEngineState with globalRunning := true }).1.filterStartEvents = 1 := by
  have h := (toggle_qualifying_start
      { initialEngineState with globalRunning := true } 0 1 _ rfl rfl rfl).1
      (Or.inl rfl)
  exact ⟨h.1, by rw [h.2]; rfl⟩

/-- C8 counterexample: after activating the service, starting counter
1 and pausing it again before any tick (a reachable state), the counter
has `isEmpty = false`, `elapsed = 0` and `isRunning = false`, so
neither "is empty" nor "has nonzero elapsed-or-running" holds — the
exactly-one-of invariant fails.  Moreover rehydration applies persisted
`isEmpty` and `isRunning` independently, so a type-valid snapshot
produces a counter that is empty and running at once. -/
theorem counter_invariant_counterexample :
    Reachable (handleToggleCounter 0 1
        (handleToggleCounter 0 1 (handleActivateGlobal initialEngineState)).1).1 ∧
    (handleToggleCounter 0 1
        (handleToggleCounter 0 1
          (handleActivateGlobal initialEngineState)).1).1.counters.find?
        (fun x => x.id == 1) =
      some { id := 1, elapsed := 0, isRunning := false, isEmpty := false,
             startCount := 0, lastPauseTimestamp := some 0, filterClicks := 1 } ∧
    ¬ counterExactlyOne
        { id := 1, elapsed := 0, isRunning := false, isEmpty := false,
          startCount := 0, lastPauseTimestamp := some 0, filterClicks := 1 } ∧
    (hydrate
        { globalElapsed := JVal.jother
          globalRunning := JVal.jother
          counters := some [{ id := JVal.jnum 1, elapsed := JVal.jother,
                              isRunning := JVal.jbool true,
                              isEmpty := JVal.jbool true,
                              startCount := JVal.jother,
                              lastPauseTimestamp := JVal.jother,
                              filterClicks := JVal.jother }]
          filterStartEvents := JVal.jother }).counters.find?
        (fun x => x.id == 1) =
      some { id := 1, elapsed := 0, isRunning := true, isEmpty := true,
             startCount := 0, lastPauseTimestamp := none, filterClicks := 0 } :=
  ⟨Reachable.toggle 0 1 (Reachable.toggle 0 1
      (Reachable.activate Reachable.init)),
   by decide, by decide, by decide⟩

/-- C8 amended: the intent and tick operations — toggle, clear,
counter tick, global tick, activate and reset-all — preserve the
per-counter invariant that a running counter is never empty
(`isRunning = true → isEmpty = false`).  (The stronger exactly-one-of
invariant fails on a counter paused at elapsed 0, and rehydration need
not preserve even the weak form.) -/
theorem counter_sane_preserved (s : EngineState)
    (h : ∀ c ∈ s.counters, counterSane c) :
    (∀ (now : Int) (id : Nat),
        ∀ c ∈ (handleToggleCounter now id s).1.counters, counterSane c) ∧
    (∀ id : Nat, ∀ c ∈ (handleClearCounter id s).counters, counterSane c) ∧
    (∀ c ∈ (countersTick s).counters, counterSane c) ∧
    (∀ c ∈ (globalTick s).counters, counterSane c) ∧
    (∀ c ∈ (handleActivateGlobal s).counters, counterSane c) ∧
    (∀ c ∈ (handleConfirmResetAll s).1.counters, counterSane c) := by
  refine ⟨?_, ?_, ?_, ?_, ?_, ?_⟩
  · intro now id c hc
    by_cases hr : s.globalRunning = true
    · rw [handleToggleCounter_counters now id s hr] at hc
      unfold toggleCounterList at hc
      rcases List.mem_map.1 hc with ⟨c0, hc0, rfl⟩
      unfold toggleOne counterSane
      split
      · exact h c0 hc0
      · split
        · intro habs
          simp at habs
        · intro _
          rfl
    · simp at hr
      rw [toggle_stopped_eq s now id hr] at hc
      exact h c hc
  · intro id c hc
    unfold handleClearCounter at hc
    simp only at hc
    rcases List.mem_map.1 hc with ⟨c0, hc0, rfl⟩
    unfold counterSane
    split
    · exact h c0 hc0
    · intro habs
      simp at habs
  · intro c hc
    unfold countersTick at hc
    simp only at hc
    rcases List.mem_map.1 hc with ⟨c0, hc0, rfl⟩
    unfold counterSane
    split
    · exact h c0 hc0
    · intro _
      rfl
  · intro c hc
    unfold globalTick at hc
    split at hc
    · exact h c (by simpa using hc)
    · exact h c hc
  · intro c hc
    unfold handleActivateGlobal at hc
    split at hc
    · exact h c hc
    · exact h c (by simpa using hc)
  · intro c hc
    simp only [handleConfirmResetAll] at hc
    revert c
    decide

/-- Witness for C8 (amended) at the initial state: the counter-tick
pass keeps counter 1 sane. -/
theorem counter_sane_preserved_witness :
    counterSane { id := 1, elapsed := 0, isRunning := false,
                  isEmpty := true, startCount := 0,
                  lastPauseTimestamp := none, filterClicks := 0 } :=
  (counter_sane_preserved initialEngineState (by decide)).2.2.1
    _ (by decide)

/-- C9 counterexample: the hydration effect checks only
`typeof parsed.globalElapsed === "number"` — no `>= 0` range check — so
a persisted `globalElapsed` of `-5` is applied verbatim instead of
being left at the freshly-initialized default 0. -/
theorem hydration_range_check_counterexample :
    (hydrate
        { globalElapsed := JVal.jnum (-5)
          globalRunning := JVal.jother
          counters := none
          filterStartEvents := JVal.jother }).globalElapsed = -5 ∧
    (-5 : Int) < 0 ∧
    initialEngineState.globalElapsed = 0 := by
  decide

/-- C9 amended: rehydration is total (a missing or unparseable record
keeps the initial state) and validates field by field — counter
`elapsed`, `startCount`, `filterClicks` and the shared
`filterStartEvents` are applied only when they are numbers `≥ 0`, the
boolean fields only when they are booleans, a missing or invalid field
keeps its freshly-initialized default — except that `globalElapsed`
and `lastPauseTimestamp` are applied whenever they are numbers, with no
`≥ 0` range check. -/
theorem hydration_field_validation (raw : RawPersisted)
    (initial : CounterState) (p : RawCounter) :
    ((∀ n : Int, raw.globalElapsed = JVal.jnum n →
        (hydrate raw).globalElapsed = n) ∧
     (raw.globalElapsed.asNum = none → (hydrate raw).globalElapsed = 0)) ∧
    ((∀ b : Bool, raw.globalRunning = JVal.jbool b →
        (hydrate raw).globalRunning = b) ∧
     (raw.globalRunning.asBool = none →
        (hydrate raw).globalRunning = false)) ∧
    ((∀ n : Int, raw.filterStartEvents = JVal.jnum n → 0 ≤ n →
        (hydrate raw).filterStartEvents = n.toNat) ∧
     (∀ n : Int, raw.filterStartEvents = JVal.jnum n → n < 0 →
        (hydrate raw).filterStartEvents = 0) ∧
     (raw.filterStartEvents.asNum = none →
        (hydrate raw).filterStartEvents = 0)) ∧
    (raw.counters = none → (hydrate raw).counters = createInitialCounters) ∧
    ((∀ n : Int, p.elapsed = JVal.jnum n → 0 ≤ n →
        (hydrateCounter initial p).elapsed = n.toNat) ∧
     (∀ n : Int, p.elapsed = JVal.jnum n → n < 0 →
        (hydrateCounter initial p).elapsed = initial.elapsed) ∧
     (p.elapsed.asNum = none →
        (hydrateCounter initial p).elapsed = initial.elapsed)) ∧
    ((∀ b : Bool, p.isRunning = JVal.jbool b →
        (hydrateCounter initial p).isRunning = b) ∧
     (p.isRunning.asBool = none →
        (hydrateCounter initial p).isRunning = initial.isRunning)) ∧
    ((∀ b : Bool, p.isEmpty = JVal.jbool b →
        (hydrateCounter initial p).isEmpty = b) ∧
     (p.isEmpty.asBool = none →
        (hydrateCounter initial p).isEmpty = initial.isEmpty)) ∧
    ((∀ n : Int, p.startCount = JVal.jnum n → 0 ≤ n →
        (hydrateCounter initial p).startCount = n.toNat) ∧
     (∀ n : Int, p.startCount = JVal.jnum n → n < 0 →
        (hydrateCounter initial p).startCount = initial.startCount) ∧
     (p.startCount.asNum = none →
        (hydrateCounter initial p).startCount = initial.startCount)) ∧
    ((∀ n : Int, p.filterClicks = JVal.jnum n → 0 ≤ n →
        (hydrateCounter initial p).filterClicks = n.toNat) ∧
     (∀ n : Int, p.filterClicks = JVal.jnum n → n < 0 →
        (hydrateCounter initial p).filterClicks = initial.filterClicks) ∧
     (p.filterClicks.asNum = none →
        (hydrateCounter initial p).filterClicks = initial.filterClicks)) ∧
    ((∀ n : Int, p.lastPauseTimestamp = JVal.jnum n →
        (hydrateCounter initial p).lastPauseTimestamp = some n) ∧
     (p.lastPauseTimestamp.asNum = none →
        (hydrateCounter initial p).lastPauseTimestamp =
          initial.lastPauseTimestamp)) ∧
    hydrateFromStore none = initialEngineState := by
  obtain ⟨ge, gr, cs, fse⟩ := raw
  obtain ⟨pid, pe, pr, pem, psc, plp, pfc⟩ := p
  refine ⟨⟨?_, ?_⟩, ⟨?_, ?_⟩, ⟨?_, ?_, ?_⟩, ?_, ⟨?_, ?_, ?_⟩, ⟨?_, ?_⟩,
    ⟨?_, ?_⟩, ⟨?_, ?_, ?_⟩, ⟨?_, ?_, ?_⟩, ⟨?_, ?_⟩, rfl⟩
  · intro n h
    subst h
    simp [hydrate]
  · intro h
    cases ge <;> simp [JVal.asNum] at h <;>
      simp [hydrate, initialEngineState]
  · intro b h
    subst h
    simp [hydrate]
  · intro h
    cases gr <;> simp [JVal.asBool] at h <;>
      simp [hydrate, initialEngineState]
  · intro n h hn
    subst h
    simp [hydrate, hn]
  · intro n h hn
    subst h
    simp [hydrate, initialEngineState, not_le.mpr hn]
  · intro h
    cases fse <;> simp [JVal.asNum] at h <;>
      simp [hydrate, initialEngineState]
  · intro h
    subst h
    simp [hydrate, initialEngineState]
  · intro n h hn
    subst h
    simp [hydrateCounter, hn]
  · intro n h hn
    subst h
    simp [hydrateCounter, not_le.mpr hn]
  · intro h
    cases pe <;> simp [JVal.asNum] at h <;> simp [hydrateCounter]
  · intro b h
    subst h
    simp [hydrateCounter]
  · intro h
    cases pr <;> simp [JVal.asBool] at h <;> simp [hydrateCounter]
  · intro b h
    subst h
    simp [hydrateCounter]
  · intro h
    cases pem <;> simp [JVal.asBool] at h <;> simp [hydrateCounter]
  · intro n h hn
    subst h
    simp [hydrateCounter, hn]
  · intro n h hn
    subst h
    simp [hydrateCounter, not_le.mpr hn]
  · intro h
    cases psc <;> simp [JVal.asNum] at h <;> simp [hydrateCounter]
  · intro n h hn
    subst h
    simp [hydrateCounter, hn]
  · intro n h hn
    subst h
    simp [hydrateCounter, not_le.mpr hn]
  · intro h
    cases pfc <;> simp [JVal.asNum] at h <;> simp [hydrateCounter]
  · intro n h
    subst h
    simp [hydrateCounter]
  · intro h
    cases plp <;> simp [JVal.asNum] at h <;> simp [hydrateCounter]

/-- Witness for C9 (amended) on a concrete partially-corrupt snapshot:
a number is applied to `globalElapsed`, a boolean to `globalRunning`, a
negative `filterStartEvents` and a negative counter `elapsed` fall back
to the defaults, a missing counters array keeps the initial counters,
an invalid `isEmpty` keeps its default, and a negative
`lastPauseTimestamp` is still applied. -/
theorem hydration_field_validation_witness :
    (hydrate
        { globalElapsed := JVal.jnum 7
          globalRunning := JVal.jbool true
          counters := none
          filterStartEvents := JVal.jnum (-3) }).globalElapsed = 7 ∧
    (hydrate
        { globalElapsed := JVal.jnum 7
          globalRunning := JVal.jbool true
          counters := none
          filterStartEvents := JVal.jnum (-3) }).globalRunning = true ∧
    (hydrate
        { globalElapsed := JVal.jnum 7
          globalRunning := JVal.jbool true
          counters := none
          filterStartEvents := JVal.jnum (-3) }).filterStartEvents = 0 ∧
    (hydrate
        { globalElapsed := JVal.jnum 7
          globalRunning := JVal.jbool true
          counters := none
          filterStartEvents := JVal.jnum (-3) }).counters =
      createInitialCounters ∧
    (hydrateCounter
        { id := 1, elapsed := 0, isRunning := false, isEmpty := true,
          startCount := 0, lastPauseTimestamp := none, filterClicks := 0 }
        { id := JVal.jnum 1, elapsed := JVal.jnum (-2),
          isRunning := JVal.jbool true, isEmpty := JVal.jother,
          startCount := JVal.jnull, lastPauseTimestamp := JVal.jnum (-10),
          filterClicks := JVal.jnum 4 }).elapsed = 0 ∧
    (hydrateCounter
        { id := 1, elapsed := 0, isRunning := false, isEmpty := true,
          startCount := 0, lastPauseTimestamp := none, filterClicks := 0 }
        { id := JVal.jnum 1, elapsed := JVal.jnum (-2),
          isRunning := JVal.jbool true, isEmpty := JVal.jother,
          startCount := JVal.jnull, lastPauseTimestamp := JVal.jnum (-10),
          filterClicks := JVal.jnum 4 }).isEmpty = true ∧
    (hydrateCounter
        { id := 1, elapsed := 0, isRunning := false, isEmpty := true,
          startCount := 0, lastPauseTimestamp := none, filterClicks := 0 }
        { id := JVal.jnum 1, elapsed := JVal.jnum (-2),
          isRunning := JVal.jbool true, isEmpty := JVal.jother,
          startCount := JVal.jnull, lastPauseTimestamp := JVal.jnum (-10),
          filterClicks := JVal.jnum 4 }).lastPauseTimestamp = some (-10) := by
  obtain ⟨⟨a1, a2⟩, ⟨b1, b2⟩, ⟨c1, c2, c3⟩, d, ⟨e1, e2, e3⟩, ⟨f1, f2⟩,
      ⟨g1, g2⟩, ⟨i1, i2, i3⟩, ⟨j1, j2, j3⟩, ⟨k1, k2⟩, l⟩ :=
    hydration_field_validation
      { globalElapsed := JVal.jnum 7
        globalRunning := JVal.jbool true
        counters := none
        filterStartEvents := JVal.jnum (-3) }
      { id := 1, elapsed := 0, isRunning := false, isEmpty := true,
        startCount := 0, lastPauseTimestamp := none, filterClicks := 0 }
      { id := JVal.jnum 1, elapsed := JVal.jnum (-2),
        isRunning := JVal.jbool true, isEmpty := JVal.jother,
        startCount := JVal.jnull, lastPauseTimestamp := JVal.jnum (-10),
        filterClicks := JVal.jnum 4 }
  exact ⟨a1 7 rfl, b1 true rfl, c2 (-3) rfl (by decide), d rfl,
    (e2 (-2) rfl (by decide)).trans rfl, (g2 (by decide)).trans rfl,
    k1 (-10) rfl⟩

/-- The initial counter list, written out. -/
theorem createInitialCounters_eq :
    createInitialCounters =
      [{ id := 1, elapsed := 0, isRunning := false, isEmpty := true,
         startCount := 0, lastPauseTimestamp := none, filterClicks := 0 },
       { id := 2, elapsed := 0, isRunning := false, isEmpty := true,
         startCount := 0, lastPauseTimestamp := none, filterClicks := 0 },
       { id := 3, elapsed := 0, isRunning := false, isEmpty := true,
         startCount := 0, lastPauseTimestamp := none, filterClicks := 0 },
       { id := 4, elapsed := 0, isRunning := false, isEmpty := true,
         startCount := 0, lastPauseTimestamp := none, filterClicks := 0 },
       { id := 5, elapsed := 0, isRunning := false, isEmpty := true,
         startCount := 0, lastPauseTimestamp := none, filterClicks := 0 }] := by
  decide

/-- Every reachable state has exactly the five counters with ids
1..5, in order. -/
theorem reachable_counter_ids (s : EngineState) (h : Reachable s) :
    s.counters.map (fun c => c.id) = [1, 2, 3, 4, 5] := by
  have hmap : ∀ (l : List CounterState) (f : CounterState → CounterState),
      (∀ c, (f c).id = c.id) →
      (l.map f).map (fun c => c.id) = l.map (fun c => c.id) := by
    intro l f hf
    rw [List.map_map]
    apply List.map_congr_left
    intro a _
    exact hf a
  induction h with
  | init => decide
  | globalTick _ ih =>
    unfold globalTick
    split
    · simpa using ih
    · exact ih
  | countersTick _ ih =>
    unfold countersTick
    rw [hmap]
    · exact ih
    · intro c
      split
      · rfl
      · rfl
  | alarm _ ih =>
    unfold checkGlobalAlarm
    split
    · simpa using ih
    · exact ih
  | activate _ ih =>
    unfold handleActivateGlobal
    split
    · exact ih
    · simpa using ih
  | resetAll _ ih =>
    simp only [handleConfirmResetAll]
    decide
  | @toggle s' now id _ ih =>
    by_cases hr : s'.globalRunning = true
    · rw [handleToggleCounter_counters now id s' hr]
      unfold toggleCounterList
      rw [hmap _ _ (fun c => toggleOne_id now id _ c)]
      exact ih
    · simp at hr
      rw [toggle_stopped_eq s' now id hr]
      exact ih
  | clear id _ ih =>
    unfold handleClearCounter
    rw [hmap]
    · exact ih
    · intro c
      split
      · rfl
      · rfl

/-- Merging a counter's own serialization back into a fresh initial
counter with the same id reproduces the counter. -/
theorem hydrateCounter_roundtrip (initial c : CounterState)
    (hid : initial.id = c.id) (hlp : initial.lastPauseTimestamp = none) :
    hydrateCounter initial (toRawCounter c) = c := by
  obtain ⟨cid, ce, cr, cem, csc, clp, cfc⟩ := c
  obtain ⟨iid, ie, ir, iem, isc, ilp, ifc⟩ := initial
  simp only at hid hlp
  subst hid
  subst hlp
  cases clp <;> simp [hydrateCounter, toRawCounter]

/-- C10: serializing the engine state of any reachable state to the
store and rehydrating from that stored snapshot (with no intervening
ticks or intents) reproduces the state field-for-field:
`globalElapsed`, `globalRunning`, `filterStartEvents`, and every field
of each of the five counters. -/
theorem persist_rehydrate_roundtrip (s : EngineState) (h : Reachable s) :
    hydrate (toRaw s) = s := by
  have hids := reachable_counter_ids s h
  obtain ⟨ge, gr, cs, fse⟩ := s
  simp only at hids ⊢
  rcases cs with _ | ⟨c1, cs⟩
  · simp at hids
  rcases cs with _ | ⟨c2, cs⟩
  · simp at hids
  rcases cs with _ | ⟨c3, cs⟩
  · simp at hids
  rcases cs with _ | ⟨c4, cs⟩
  · simp at hids
  rcases cs with _ | ⟨c5, cs⟩
  · simp at hids
  rcases cs with _ | ⟨c6, cs⟩
  case cons => simp at hids
  obtain ⟨h1, h2, h3, h4, h5⟩ :
      c1.id = 1 ∧ c2.id = 2 ∧ c3.id = 3 ∧ c4.id = 4 ∧ c5.id = 5 := by
    simpa using hids
  have e1 := hydrateCounter_roundtrip
    { id := 1, elapsed := 0, isRunning := false, isEmpty := true,
      startCount := 0, lastPauseTimestamp := none, filterClicks := 0 } c1
    (by rw [h1]) rfl
  have e2 := hydrateCounter_roundtrip
    { id := 2, elapsed := 0, isRunning := false, isEmpty := true,
      startCount := 0, lastPauseTimestamp := none, filterClicks := 0 } c2
    (by rw [h2]) rfl
  have e3 := hydrateCounter_roundtrip
    { id := 3, elapsed := 0, isRunning := false, isEmpty := true,
      startCount := 0, lastPauseTimestamp := none, filterClicks := 0 } c3
    (by rw [h3]) rfl
  have e4 := hydrateCounter_roundtrip
    { id := 4, elapsed := 0, isRunning := false, isEmpty := true,
      startCount := 0, lastPauseTimestamp := none, filterClicks := 0 } c4
    (by rw [h4]) rfl
  have e5 := hydrateCounter_roundtrip
    { id := 5, elapsed := 0, isRunning := false, isEmpty := true,
      startCount := 0, lastPauseTimestamp := none, filterClicks := 0 } c5
    (by rw [h5]) rfl
  have hf : ∀ (k : Nat) (c : CounterState),
      ((toRawCounter c).id == JVal.jnum (k : Int)) = (c.id == k) := by
    intro k c
    by_cases hc : c.id = k
    · simp [toRawCounter, hc]
    · have hb1 : (c.id == k) = false := by simpa using hc
      have hb2 : ((toRawCounter c).id == JVal.jnum (k : Int)) = false := by
        rw [beq_eq_false_iff_ne]
        simp [toRawCounter]
        exact hc
      rw [hb1, hb2]
  have F : ∀ k : Nat,
      (([c1, c2, c3, c4, c5].map toRawCounter).find? fun item =>
          item.id == JVal.jnum (k : Int)) =
        (([c1, c2, c3, c4, c5].find? fun c => c.id == k).map toRawCounter) :=
    fun k => find?_map_pred_invariant toRawCounter _ _ (fun c => hf k c) _
  simp only [List.map_cons, List.map_nil] at F
  have g1 : ([c1, c2, c3, c4, c5].find? fun c => c.id == (1 : Nat)) = some c1 :=
    List.find?_cons_of_pos _ (by rw [h1]; decide)
  have g2 : ([c1, c2, c3, c4, c5].find? fun c => c.id == (2 : Nat)) = some c2 := by
    rw [List.find?_cons_of_neg _ (by rw [h1]; decide)]
    exact List.find?_cons_of_pos _ (by rw [h2]; decide)
  have g3 : ([c1, c2, c3, c4, c5].find? fun c => c.id == (3 : Nat)) = some c3 := by
    rw [List.find?_cons_of_neg _ (by rw [h1]; decide),
      List.find?_cons_of_neg _ (by rw [h2]; decide)]
    exact List.find?_cons_of_pos _ (by rw [h3]; decide)
  have g4 : ([c1, c2, c3, c4, c5].find? fun c => c.id == (4 : Nat)) = some c4 := by
    rw [List.find?_cons_of_neg _ (by rw [h1]; decide),
      List.find?_cons_of_neg _ (by rw [h2]; decide),
      List.find?_cons_of_neg _ (by rw [h3]; decide)]
    exact List.find?_cons_of_pos _ (by rw [h4]; decide)
  have g5 : ([c1, c2, c3, c4, c5].find? fun c => c.id == (5 : Nat)) = some c5 := by
    rw [List.find?_cons_of_neg _ (by rw [h1]; decide),
      List.find?_cons_of_neg _ (by rw [h2]; decide),
      List.find?_cons_of_neg _ (by rw [h3]; decide),
      List.find?_cons_of_neg _ (by rw [h4]; decide)]
    exact List.find?_cons_of_pos _ (by rw [h5]; decide)
  simp only [hydrate, toRaw, createInitialCounters_eq, initialEngineState,
    List.map_cons, List.map_nil]
  rw [F 1, F 2, F 3, F 4, F 5, g1, g2, g3, g4, g5]
  simp [e1, e2, e3, e4, e5]

/-- Witness for C10 at the initial state. -/
theorem persist_rehydrate_roundtrip_witness :
    hydrate (toRaw initialEngineState) = initialEngineState :=
  persist_rehydrate_roundtrip initialEngineState Reachable.init

end Kamreen
